import Mathlib

set_option maxRecDepth 100000

/-!
Shallow embedding of the Warbler application (a micro-blogging web app:
`models.py`, `forms.py`, `app.py`).  The four database tables become lists
of rows inside a `DB` state; the SQLAlchemy model methods and the Flask
route handlers become Lean functions from a `DB` (plus request data) to a
new `DB` and an HTTP-level response.  Machine integers in the source are
plain Python ints, so ids and timestamps are `Nat` here.
-/

namespace Warbler

/-- Default profile image URL (`models.py`, `DEFAULT_IMAGE_URL`). -/
def DEFAULT_IMAGE_URL : String :=
  "https://icon-library.com/images/default-user-icon/default-user-icon-28.jpg"

/-- Default header image URL (`models.py`, `DEFAULT_HEADER_IMAGE_URL`). -/
def DEFAULT_HEADER_IMAGE_URL : String :=
  "https://images.unsplash.com/photo-1519751138087-5bf79df62d5b"

/-- Model of `flask_bcrypt.generate_password_hash`: a salted one-way hash,
rendered as a `$2b$<salt>$...` string as bcrypt does.  The model keeps the
password inside the encoding so that verification can recompute it; the
only property the development relies on is that `check_password_hash`
succeeds exactly on the hashed password. -/
def generate_password_hash (salt : Nat) (password : String) : String :=
  "$2b$" ++ toString salt ++ "$" ++ password

/-- Model of `flask_bcrypt.check_password_hash stored password`: extract the
salt from the stored string and compare against re-hashing `password` with
that salt. -/
def check_password_hash (stored password : String) : Bool :=
  stored ==
    "$2b$" ++ String.mk ((stored.data.drop 4).takeWhile (fun c => c != '$')) ++
      "$" ++ password

/-- Row of the `users` table (`models.py`, class `User`). -/
structure User where
  id : Nat
  username : String
  email : String
  image_url : String
  header_image_url : String
  bio : String
  location : String
  password : String
deriving Repr, DecidableEq

/-- Row of the `messages` table (`models.py`, class `Message`). -/
structure Message where
  id : Nat
  text : String
  timestamp : Nat
  user_id : Nat
deriving Repr, DecidableEq

/-- Row of the `follows` table (`models.py`, class `Follow`): a directed
edge, composite primary key `(user_being_followed_id, user_following_id)`. -/
structure Follow where
  user_being_followed_id : Nat
  user_following_id : Nat
deriving Repr, DecidableEq

/-- Row of the `likes` table (`models.py`, class `Like`): composite primary
key `(user_id, message_id)`. -/
structure Like where
  user_id : Nat
  message_id : Nat
deriving Repr, DecidableEq

/-- The persistent database state: the four tables, each a list of rows in
insertion order. -/
structure DB where
  users : List User
  messages : List Message
  follows : List Follow
  likes : List Like
deriving Repr, DecidableEq

/-- `db.session.get(User, uid)`: primary-key lookup in the `users` table. -/
def getUser (db : DB) (uid : Nat) : Option User :=
  db.users.find? (fun u => u.id == uid)

/-- `db.session.get(Message, mid)`: primary-key lookup in `messages`. -/
def getMessage (db : DB) (mid : Nat) : Option Message :=
  db.messages.find? (fun m => m.id == mid)

/-- Is some user row already using this username (the `users.username`
unique constraint)? -/
def usernameTaken (db : DB) (username : String) : Bool :=
  db.users.any (fun u => u.username == username)

/-- Is some user row already using this email (the `users.email` unique
constraint)? -/
def emailTaken (db : DB) (email : String) : Bool :=
  db.users.any (fun u => u.email == email)

/-- Fresh id for a new user row, modelling the `db.Identity()` column: one
more than the largest id in use. -/
def nextUserId (db : DB) : Nat :=
  db.users.foldr (fun u m => max m u.id) 0 + 1

/-- Fresh id for a new message row (`db.Identity()` on `messages.id`). -/
def nextMessageId (db : DB) : Nat :=
  db.messages.foldr (fun m acc => max acc m.id) 0 + 1

/-- `User.signup` (`models.py`): hash the password and build the new user
row; the remaining columns take their declared defaults.  The insertion
itself and the unique constraints are checked at commit time by the route
(`app.py` `signup`). -/
def User.signup (newId salt : Nat) (username email password image_url : String) :
    User :=
  { id := newId
    username := username
    email := email
    image_url := image_url
    header_image_url := DEFAULT_HEADER_IMAGE_URL
    bio := ""
    location := ""
    password := generate_password_hash salt password }

/-- `User.authenticate` (`models.py`): select the user rows matching the
username; on exactly one row, verify the password hash and return the user,
otherwise (no such user, or wrong password) report no match.  The source
returns `False` for no match; the model uses `none`.  More than one row
cannot occur under the unique-username constraint (`scalar_one_or_none`
would raise there). -/
def User.authenticate (db : DB) (username password : String) : Option User :=
  match db.users.filter (fun u => u.username == username) with
  | [u] => if check_password_hash u.password password then some u else none
  | _ => none

/-- `User.follow` (`models.py`): insert a `Follow` edge with
`user_being_followed_id = other.id` and `user_following_id = self.id`. -/
def User.follow (db : DB) (self other : User) : DB :=
  { db with
    follows :=
      db.follows ++
        [{ user_being_followed_id := other.id, user_following_id := self.id }] }

/-- `User.unfollow` (`models.py`): delete the matching edge rows
(`db.delete(Follow).filter_by(...)`); deleting nothing is not an error. -/
def User.unfollow (db : DB) (self other : User) : DB :=
  { db with
    follows :=
      db.follows.filter (fun f =>
        !(f.user_being_followed_id == other.id &&
          f.user_following_id == self.id)) }

/-- The `User.following` property (`models.py`): for each `Follow` row with
`user_following_id = self.id`, the user row referenced by
`user_being_followed_id`. -/
def User.following (db : DB) (self : User) : List User :=
  (db.follows.filter (fun f => f.user_following_id == self.id)).filterMap
    (fun f => db.users.find? (fun u => u.id == f.user_being_followed_id))

/-- The `User.followers` property (`models.py`): for each `Follow` row with
`user_being_followed_id = self.id`, the user row referenced by
`user_following_id`. -/
def User.followers (db : DB) (self : User) : List User :=
  (db.follows.filter (fun f => f.user_being_followed_id == self.id)).filterMap
    (fun f => db.users.find? (fun u => u.id == f.user_following_id))

/-- `User.is_following` (`models.py`): count the occurrences of `other` in
`self.following` and test the count against 1. -/
def User.is_following (db : DB) (self other : User) : Bool :=
  ((User.following db self).filter (fun u => u == other)).length == 1

/-- `User.is_followed_by` (`models.py`): count the occurrences of `other`
in `self.followers` and test the count against 1. -/
def User.is_followed_by (db : DB) (self other : User) : Bool :=
  ((User.followers db self).filter (fun u => u == other)).length == 1

/-- Does a `Like` edge `(uid, mid)` exist?  This is the membership test
behind `msg in self.liked_messages` in `models.py` (object equality in the
ORM identity map reduces to row identity, hence to the key pair). -/
def likeExists (db : DB) (uid mid : Nat) : Bool :=
  db.likes.any (fun l => l.user_id == uid && l.message_id == mid)

/-- `User.toggle_like` (`models.py`): if the `(self.id, msg.id)` edge
exists, delete it (`db.delete(Like).filter_by(...)`), otherwise insert it. -/
def User.toggle_like (db : DB) (self : User) (msg : Message) : DB :=
  if likeExists db self.id msg.id then
    { db with
      likes :=
        db.likes.filter (fun l =>
          !(l.user_id == self.id && l.message_id == msg.id)) }
  else
    { db with likes := db.likes ++ [{ user_id := self.id, message_id := msg.id }] }

/-! ### Form validation layer (`forms.py`)

WTForms validators as boolean predicates on the submitted string values.
`InputRequired` fails exactly on an absent/empty raw value; `Length` bounds
the character count; `Optional` skips the remaining validators when the
field is empty. -/

/-- The `InputRequired()` validator: the submitted raw value is present and
non-empty. -/
def inputRequired (s : String) : Bool := s != ""

/-- Split a character list at every occurrence of the separator `c`
(the character-level core of `str.split`). -/
def splitOnChar (c : Char) : List Char → List (List Char)
  | [] => [[]]
  | x :: xs =>
      match splitOnChar c xs with
      | [] => if x == c then [[], []] else [[x]]
      | h :: t => if x == c then [] :: h :: t else (x :: h) :: t

/-- The `Email()` validator, modelled from the spec as an email-shape
check: one `@` separating a non-empty local part from a domain made of
non-empty dot-separated labels, at least two of them.  (The source
delegates to the third-party `email_validator` package; the claims only
need that some concrete addresses pass and some malformed ones fail.) -/
def emailShape (s : String) : Bool :=
  match splitOnChar '@' s.data with
  | [loc, domain] =>
      !loc.isEmpty && !domain.isEmpty &&
        (splitOnChar '.' domain).length >= 2 &&
        (splitOnChar '.' domain).all (fun p => !p.isEmpty)
  | _ => false

/-- The `URL()` validator, modelled from the spec as a URL-shape check:
an http or https scheme followed by a non-empty remainder. -/
def urlShape (s : String) : Bool :=
  ("http://".data.isPrefixOf s.data && s.data.length > 7) ||
    ("https://".data.isPrefixOf s.data && s.data.length > 8)

/-- `MessageForm` (`forms.py`): the `text` field carries only
`InputRequired()` — there is no length validator on the form. -/
def MessageForm.validate (text : String) : Bool :=
  inputRequired text

/-- `UserAddForm` (`forms.py`): username required and at most 30 chars;
email required, email-shaped, at most 50 chars; password required with
length between 6 and 50; image URL optional, but when present it must be
URL-shaped and at most 255 chars. -/
def UserAddForm.validate (username email password image_url : String) : Bool :=
  (inputRequired username && username.length <= 30) &&
  (inputRequired email && emailShape email && email.length <= 50) &&
  (inputRequired password && 6 <= password.length && password.length <= 50) &&
  (image_url == "" || (urlShape image_url && image_url.length <= 255))

/-! ### Route/controller layer (`app.py`)

Each handler becomes a function from the database, the session (the
`curr_user` id, if any), a flag for whether the anti-forgery form
validated, and the request data, to a new database, a new session and a
response.  `g.user` is the per-request resolution of the session id
against the `users` table (`add_user_to_g`). -/

/-- The visible outcome of one request: a redirect or a rendered page
(either possibly flashing a message), a 404, a 403 (`abort(403)`), or an
uncaught error surfacing as a server error. -/
inductive Response where
  | redirect (url : String) (flash : Option String)
  | render (page : String) (flash : Option String)
  | notFound
  | forbidden
  | serverError
deriving Repr, DecidableEq

/-- The uniform unauthorized outcome: flash "Access unauthorized." and
redirect to `/`. -/
def unauthorizedResp : Response :=
  Response.redirect "/" (some "Access unauthorized.")

/-- Result of handling one request: the database after commit (unchanged
when nothing committed), the session, and the response. -/
structure HttpResult where
  db : DB
  sess : Option Nat
  resp : Response
deriving Repr, DecidableEq

/-- `add_user_to_g` (`app.py`): resolve the current user from the session
id, `db.session.get(User, session[CURR_USER_KEY])`. -/
def gUser (db : DB) (sess : Option Nat) : Option User :=
  sess.bind (fun uid => getUser db uid)

namespace App

/-- `signup` route (`app.py`), POST with a submitted form.  On a valid
form: logout, build the new user via `User.signup` (an empty image URL
falls back to the column default) and commit; a uniqueness violation on
username or email raises `IntegrityError`, caught and turned into a
re-render flashing "Username already taken" with no row inserted.  On an
invalid form: re-render.  `salt` stands for the per-call bcrypt salt. -/
def signup (db : DB) (salt : Nat)
    (username email password image_url : String) : HttpResult :=
  if UserAddForm.validate username email password image_url then
    let user := User.signup (nextUserId db) salt username email password
      (if image_url == "" then DEFAULT_IMAGE_URL else image_url)
    if usernameTaken db username || emailTaken db email then
      { db := db, sess := none
        resp := Response.render "users/signup.jinja"
          (some "Username already taken") }
    else
      { db := { db with users := db.users ++ [user] }
        sess := some user.id
        resp := Response.redirect "/" none }
  else
    { db := db, sess := none, resp := Response.render "users/signup.jinja" none }

/-- `show_likes` route (`app.py`, GET `/users/<user_id>/likes`): after the
auth gate, the user row is fetched with `db.session.get` — with no
not-found check — and the likes page is rendered regardless. -/
def show_likes (db : DB) (sess : Option Nat) (user_id : Nat) : HttpResult :=
  match gUser db sess with
  | none => { db := db, sess := sess, resp := unauthorizedResp }
  | some _ =>
      let _user := getUser db user_id
      { db := db, sess := sess
        resp := Response.render "users/likes.jinja" none }

/-- `show_user` route (`app.py`, GET `/users/<user_id>`): after the auth
gate, `db.get_or_404(User, user_id)` aborts with 404 when the row is
missing, else the profile page renders. -/
def show_user (db : DB) (sess : Option Nat) (user_id : Nat) : HttpResult :=
  match gUser db sess with
  | none => { db := db, sess := sess, resp := unauthorizedResp }
  | some _ =>
      match getUser db user_id with
      | none => { db := db, sess := sess, resp := Response.notFound }
      | some _ =>
          { db := db, sess := sess
            resp := Response.render "users/show.jinja" none }

/-- `toggle_like` route (`app.py`, POST `/messages/<message_id>/like`):
anti-forgery plus auth gate; `db.get_or_404(Message, ...)`; read the
`came_from` redirect target defaulting to `/`; reject liking ones own
message with `abort(403)`; otherwise toggle the edge and commit, then
redirect. -/
def toggle_like (db : DB) (sess : Option Nat) (csrf_ok : Bool)
    (message_id : Nat) (came_from : Option String) : HttpResult :=
  match (if csrf_ok then gUser db sess else none) with
  | none => { db := db, sess := sess, resp := unauthorizedResp }
  | some user =>
      match getMessage db message_id with
      | none => { db := db, sess := sess, resp := Response.notFound }
      | some liked_message =>
          let redirection_url := came_from.getD "/"
          if liked_message.user_id == user.id then
            { db := db, sess := sess, resp := Response.forbidden }
          else
            { db := User.toggle_like db user liked_message
              sess := sess
              resp := Response.redirect redirection_url none }

/-- `delete_user` route (`app.py`, POST `/users/delete`): anti-forgery plus
auth gate; logout; bulk-delete the users messages (the database `ON DELETE
CASCADE` on `likes.message_id` removes the likes of those messages); then
delete the user row, cascading to the follow edges in both directions and
the users own likes; commit and redirect to `/signup`. -/
def delete_user (db : DB) (sess : Option Nat) (csrf_ok : Bool) : HttpResult :=
  match (if csrf_ok then gUser db sess else none) with
  | none => { db := db, sess := sess, resp := unauthorizedResp }
  | some user =>
      let deletedMsgIds :=
        (db.messages.filter (fun m => m.user_id == user.id)).map (fun m => m.id)
      let db1 : DB :=
        { db with
          messages := db.messages.filter (fun m => !(m.user_id == user.id))
          likes :=
            db.likes.filter (fun l => !(deletedMsgIds.contains l.message_id)) }
      let db2 : DB :=
        { users := db1.users.filter (fun u => !(u.id == user.id))
          messages := db1.messages.filter (fun m => !(m.user_id == user.id))
          follows :=
            db1.follows.filter (fun f =>
              !(f.user_being_followed_id == user.id ||
                f.user_following_id == user.id))
          likes := db1.likes.filter (fun l => !(l.user_id == user.id)) }
      { db := db2, sess := none, resp := Response.redirect "/signup" none }

/-- `add_message` route (`app.py`, POST `/messages/new`): auth gate; the
`MessageForm` validates (`InputRequired` on `text`, plus the anti-forgery
token checked by `validate_on_submit`); on success a `Message` row is
built with a server-assigned timestamp and committed — but the
`messages.text` column is declared `String(140)`, so a text longer than
140 characters makes the commit itself fail, which no handler catches
(server error, nothing persisted).  On a failed validation the form is
re-rendered. -/
def add_message (db : DB) (sess : Option Nat) (csrf_ok : Bool)
    (text : String) (now : Nat) : HttpResult :=
  match gUser db sess with
  | none => { db := db, sess := sess, resp := unauthorizedResp }
  | some user =>
      if csrf_ok && MessageForm.validate text then
        if text.length <= 140 then
          let msg : Message :=
            { id := nextMessageId db, text := text, timestamp := now
              user_id := user.id }
          { db := { db with messages := db.messages ++ [msg] }
            sess := sess
            resp := Response.redirect ("/users/" ++ toString user.id) none }
        else
          { db := db, sess := sess, resp := Response.serverError }
      else
        { db := db, sess := sess
          resp := Response.render "messages/create.jinja" none }

/-- The candidate set of the home feed (`app.py`, `homepage`): the
messages whose author is the current user or one of the users they follow
(`Message.user_id.in_(following_ids)`). -/
def homeFeedCandidates (db : DB) (user : User) : List Message :=
  let following_ids := (User.following db user).map (fun u => u.id) ++ [user.id]
  db.messages.filter (fun m => following_ids.contains m.user_id)

/-- The `homepage` query (`app.py`): `ORDER BY timestamp DESC LIMIT 100`
over the candidate set.  SQL fixes only the timestamp ordering — it names
no tie-break — so the embedding is the relation admitting every
timestamp-descending arrangement of the candidates, truncated to 100. -/
def homepageQueryResult (db : DB) (user : User) (r : List Message) : Prop :=
  ∃ p : List Message,
    p.Perm (homeFeedCandidates db user) ∧
    p.Pairwise (fun a b => b.timestamp ≤ a.timestamp) ∧
    r = p.take 100

end App

/-! ### Concrete data for witnesses and counterexamples

A small world mirroring the test fixtures of the repository
(`test_user_views.py` and friends): two users, a message owned by the
second, a follow edge and a like. -/

/-- Concrete user: alice, id 1, password `secret1` hashed with salt 3. -/
def wAlice : User :=
  { id := 1, username := "alice", email := "alice@mail.com"
    image_url := "i.png", header_image_url := "h.png", bio := ""
    location := "", password := generate_password_hash 3 "secret1" }

/-- Concrete user: bob, id 2, password `secret2` hashed with salt 4. -/
def wBob : User :=
  { id := 2, username := "bob", email := "bob@mail.com"
    image_url := "i.png", header_image_url := "h.png", bio := ""
    location := "", password := generate_password_hash 4 "secret2" }

/-- Concrete message, id 1, owned by bob. -/
def wMsg : Message := { id := 1, text := "hello", timestamp := 5, user_id := 2 }

/-- Concrete world: alice and bob, bobs message, no edges. -/
def dbW : DB := { users := [wAlice, wBob], messages := [wMsg], follows := [], likes := [] }

/-- Concrete message by alice, for the cascade-delete scenario. -/
def wMsgA : Message := { id := 2, text := "mine", timestamp := 6, user_id := 1 }

/-- Concrete world for account deletion: both users, a message each, follow
edges in both directions, and likes in both directions. -/
def dbBig : DB :=
  { users := [wAlice, wBob]
    messages := [wMsg, wMsgA]
    follows :=
      [{ user_being_followed_id := 2, user_following_id := 1 },
       { user_being_followed_id := 1, user_following_id := 2 }]
    likes :=
      [{ user_id := 1, message_id := 1 }, { user_id := 2, message_id := 2 }] }

/-- Two concrete messages by alice with the same timestamp, for the home
feed tie-break analysis. -/
def mTie1 : Message := { id := 1, text := "first", timestamp := 5, user_id := 1 }

/-- Second message in the timestamp tie, with the larger id. -/
def mTie2 : Message := { id := 2, text := "second", timestamp := 5, user_id := 1 }

/-- Concrete world with two equal-timestamp messages by alice. -/
def dbTie : DB :=
  { users := [wAlice], messages := [mTie1, mTie2], follows := [], likes := [] }

/-- A concrete 141-character message text. -/
def longText : String := String.mk (List.replicate 141 'a')

/-! ### Helper lemmas -/

/-- A filter that negates a predicate no element satisfies keeps the whole
list. -/
theorem filter_not_eq_self {α : Type} (l : List α) (p : α → Bool)
    (h : l.any p = false) : l.filter (fun a => !(p a)) = l := by
  apply List.filter_eq_self.mpr
  intro a ha
  simp only [Bool.not_eq_true']
  by_contra hc
  have : l.any p = true := List.any_eq_true.mpr ⟨a, ha, by simpa using hc⟩
  simp [this] at h

/-- After filtering out every `p`-element, no `p`-element is left. -/
theorem any_filter_not_self {α : Type} (l : List α) (p : α → Bool) :
    (l.filter (fun a => !(p a))).any p = false := by
  rw [List.any_eq_false]
  intro a ha
  have h2 := (List.mem_filter.mp ha).2
  simp only [Bool.not_eq_true'] at h2
  simp [h2]

/-- Filtering out `p`-elements does not change whether a `q`-element
exists, when no element can satisfy both predicates. -/
theorem any_filter_not_of_disjoint {α : Type} (l : List α) (p q : α → Bool)
    (h : ∀ a, q a = true → p a = false) :
    (l.filter (fun a => !(p a))).any q = l.any q := by
  rcases hq : l.any q with _ | _
  · rw [List.any_eq_false] at hq ⊢
    intro a ha
    exact hq a (List.mem_filter.mp ha).1
  · obtain ⟨a, ha, hqa⟩ := List.any_eq_true.mp hq
    exact List.any_eq_true.mpr
      ⟨a, List.mem_filter.mpr ⟨ha, by simp [h a hqa]⟩, hqa⟩

/-- Primary-key lookup: when the ids in the table are distinct, looking up
the id of a stored row finds exactly that row. -/
theorem find_user_by_id (us : List User) (B : User) (hB : B ∈ us)
    (hn : (us.map (fun u => u.id)).Nodup) :
    us.find? (fun u => u.id == B.id) = some B := by
  induction us with
  | nil => cases hB
  | cons u rest ih =>
      rcases List.mem_cons.mp hB with h | h
      · subst h
        simp [List.find?]
      · have hn' := hn
        rw [List.map_cons, List.nodup_cons] at hn'
        have hne : u.id ≠ B.id := by
          intro he
          exact hn'.1 (he ▸ List.mem_map.mpr ⟨B, h, rfl⟩)
        rw [List.find?_cons_of_neg _ (by simpa using hne)]
        exact ih h hn'.2

/-! ### Claim theorems -/

/-- Claim C5: authenticating with a stored users username but a wrong
password and authenticating with a username that matches no user both
yield the no-match result, and the two runs return equal values, so the
caller cannot distinguish them. -/
theorem authenticate_no_match_indistinguishable
    (db : DB) (u : User) (wrongPw unknownName anyPw : String)
    (hu : db.users.filter (fun x => x.username == u.username) = [u])
    (hwrong : check_password_hash u.password wrongPw = false)
    (hunknown : ∀ x ∈ db.users, x.username ≠ unknownName) :
    User.authenticate db u.username wrongPw = none ∧
    User.authenticate db unknownName anyPw = none ∧
    User.authenticate db u.username wrongPw =
      User.authenticate db unknownName anyPw := by
  have h1 : User.authenticate db u.username wrongPw = none := by
    unfold User.authenticate
    rw [hu]
    simp [hwrong]
  have h2 : User.authenticate db unknownName anyPw = none := by
    unfold User.authenticate
    have hnil : db.users.filter (fun x => x.username == unknownName) = [] := by
      rw [List.filter_eq_nil_iff]
      intro a ha
      simpa using hunknown a ha
    rw [hnil]
  exact ⟨h1, h2, by rw [h1, h2]⟩

/-- Witness for C5: in the concrete world, a wrong password for alice and
an unknown username both produce `none`. -/
theorem authenticate_no_match_indistinguishable_witness :
    User.authenticate dbW "alice" "nope" = none ∧
    User.authenticate dbW "carol" "whatever" = none ∧
    User.authenticate dbW "alice" "nope" =
      User.authenticate dbW "carol" "whatever" :=
  authenticate_no_match_indistinguishable dbW wAlice "nope" "carol" "whatever"
    (by decide) (by decide) (by decide)

/-- Claim C3: a second signup with an already-present username passes the
form but fails at commit, surfacing the caller-visible "Username already
taken" outcome; the database is unchanged (no partial insert) and exactly
one user row with that username remains. -/
theorem signup_duplicate_username (db : DB) (salt : Nat)
    (username email password image_url : String)
    (hvalid : UserAddForm.validate username email password image_url = true)
    (htaken : usernameTaken db username = true)
    (hone : (db.users.filter (fun u => u.username == username)).length = 1) :
    (App.signup db salt username email password image_url).db = db ∧
    (App.signup db salt username email password image_url).resp =
      Response.render "users/signup.jinja" (some "Username already taken") ∧
    (((App.signup db salt username email password image_url).db.users.filter
      (fun u => u.username == username)).length = 1) := by
  unfold App.signup
  simp [hvalid, htaken, hone]

/-- Witness for C3: signing alice up a second time in the concrete world
fails with "already taken" and leaves her single row in place. -/
theorem signup_duplicate_username_witness :
    (App.signup dbW 9 "alice" "new@mail.com" "secret99" "").db = dbW ∧
    (App.signup dbW 9 "alice" "new@mail.com" "secret99" "").resp =
      Response.render "users/signup.jinja" (some "Username already taken") ∧
    (((App.signup dbW 9 "alice" "new@mail.com" "secret99" "").db.users.filter
      (fun u => u.username == "alice")).length = 1) :=
  signup_duplicate_username dbW 9 "alice" "new@mail.com" "secret99" ""
    (by decide) (by decide) (by decide)

/-- Claim C10: the signup form accepts a password only when its length is
between 6 and 50 inclusive; an out-of-range password fails validation and
the signup route re-renders the form with the database unchanged, so no
user row is created. -/
theorem signup_password_length_bounds (db : DB) (salt : Nat)
    (username email password image_url : String) :
    (UserAddForm.validate username email password image_url = true →
      6 ≤ password.length ∧ password.length ≤ 50) ∧
    (password.length < 6 ∨ 50 < password.length →
      UserAddForm.validate username email password image_url = false ∧
      (App.signup db salt username email password image_url).db = db ∧
      (App.signup db salt username email password image_url).resp =
        Response.render "users/signup.jinja" none) := by
  have hb : password.length < 6 ∨ 50 < password.length →
      UserAddForm.validate username email password image_url = false := by
    intro h
    unfold UserAddForm.validate
    rcases h with h | h
    · have hd : decide (6 ≤ password.length) = false :=
        decide_eq_false_iff_not.mpr (Nat.not_le.mpr h)
      simp [hd]
    · have hd : decide (password.length ≤ 50) = false :=
        decide_eq_false_iff_not.mpr (Nat.not_le.mpr h)
      simp [hd]
  refine ⟨?_, fun h => ⟨hb h, ?_, ?_⟩⟩
  · intro hv
    simp only [UserAddForm.validate, Bool.and_eq_true, decide_eq_true_eq] at hv
    exact ⟨hv.1.2.1.2, hv.1.2.2⟩
  · unfold App.signup
    simp [hb h]
  · unfold App.signup
    simp [hb h]

/-- Witness for C10: a valid form gives an in-range password length, and a
5-character password is rejected with the database unchanged. -/
theorem signup_password_length_bounds_witness :
    (6 ≤ ("secret1" : String).length ∧ ("secret1" : String).length ≤ 50) ∧
    UserAddForm.validate "carol" "carol@mail.com" "tiny5" "" = false ∧
    (App.signup dbW 9 "carol" "carol@mail.com" "tiny5" "").db = dbW ∧
    (App.signup dbW 9 "carol" "carol@mail.com" "tiny5" "").resp =
      Response.render "users/signup.jinja" none :=
  ⟨(signup_password_length_bounds dbW 9 "carol" "carol@mail.com" "secret1" "").1
      (by decide),
   (signup_password_length_bounds dbW 9 "carol" "carol@mail.com" "tiny5" "").2
      (by decide)⟩

/-- Claim C2: with a valid anti-forgery token and an authenticated user,
toggling a like on the users own message is rejected with the 403
forbidden outcome, the whole database is unchanged (in particular no Like
edge is created), and that outcome is distinct from the generic
unauthorized outcome. -/
theorem toggle_like_own_message_forbidden (db : DB) (uid mid : Nat)
    (U : User) (M : Message) (came_from : Option String)
    (hg : getUser db uid = some U)
    (hm : getMessage db mid = some M)
    (hown : M.user_id = U.id) :
    App.toggle_like db (some uid) true mid came_from =
      { db := db, sess := some uid, resp := Response.forbidden } ∧
    Response.forbidden ≠ unauthorizedResp := by
  constructor
  · unfold App.toggle_like
    simp [gUser, hg, hm, hown]
  · simp [unauthorizedResp]

/-- Witness for C2: bob trying to like his own message in the concrete
world gets the forbidden outcome with no state change. -/
theorem toggle_like_own_message_forbidden_witness :
    App.toggle_like dbW (some 2) true 1 (some "/") =
      { db := dbW, sess := some 2, resp := Response.forbidden } ∧
    Response.forbidden ≠ unauthorizedResp :=
  toggle_like_own_message_forbidden dbW 2 1 wBob wMsg (some "/")
    (by decide) (by decide) (by decide)

/-- Claim C9 (code bug at `show_likes`): with an authenticated user, the
likes page of a user id that has no row is rendered anyway — the handler
uses a plain `db.session.get` with no not-found check — while the sibling
profile route returns the not-found status on the same missing id. -/
theorem show_likes_missing_user_not_404 :
    getUser dbW 999 = none ∧
    App.show_likes dbW (some 1) 999 =
      { db := dbW, sess := some 1
        resp := Response.render "users/likes.jinja" none } ∧
    (App.show_likes dbW (some 1) 999).resp ≠ Response.notFound ∧
    (App.show_user dbW (some 1) 999).resp = Response.notFound := by
  decide

/-- Claim C8 (counterexample): a 141-character text passes the message
form validation, because `MessageForm` carries only the `InputRequired`
validator: over-long text is not rejected by validation, and the handler
reaches the commit, which fails at the column constraint as a server
error rather than a validation re-render. -/
theorem message_form_length_not_validated :
    longText.length = 141 ∧
    MessageForm.validate longText = true ∧
    (App.add_message dbW (some 1) true longText 7).resp =
      Response.serverError ∧
    (App.add_message dbW (some 1) true longText 7).resp ≠
      Response.render "messages/create.jinja" none := by
  decide

/-- Claim C8 (amended): the message form validates only that the text is
present.  Empty text is rejected by validation with no row created and
the form re-rendered; text longer than 140 characters passes validation
but the commit fails on the `messages.text` column constraint as a server
error, so no row is persisted in that case either. -/
theorem add_message_validation (db : DB) (sess : Option Nat) (U : User)
    (text : String) (now : Nat)
    (hg : gUser db sess = some U) :
    MessageForm.validate text = (text != "") ∧
    (text = "" →
      App.add_message db sess true text now =
        { db := db, sess := sess
          resp := Response.render "messages/create.jinja" none }) ∧
    (140 < text.length →
      App.add_message db sess true text now =
        { db := db, sess := sess, resp := Response.serverError }) := by
  refine ⟨rfl, ?_, ?_⟩
  · intro he
    subst he
    unfold App.add_message
    rw [hg]
    simp [MessageForm.validate, inputRequired]
  · intro hl
    have hne : text ≠ "" := by
      intro he
      subst he
      simp at hl
    unfold App.add_message
    rw [hg]
    have hv : MessageForm.validate text = true := by
      simp [MessageForm.validate, inputRequired, hne]
    simp [hv, Nat.not_le.mpr hl]

/-- Witness for the amended C8: posting the concrete 141-character text as
alice ends in the server error with the database unchanged. -/
theorem add_message_validation_witness :
    App.add_message dbW (some 1) true longText 7 =
      { db := dbW, sess := some 1, resp := Response.serverError } :=
  (add_message_validation dbW (some 1) wAlice longText 7 (by decide)).2.2
    (by decide)

/-- The `likes` table after one toggle, when the edge already exists:
the matching rows are deleted. -/
theorem toggle_like_likes_pos (d : DB) (U : User) (M : Message)
    (h : d.likes.any
      (fun l => l.user_id == U.id && l.message_id == M.id) = true) :
    (User.toggle_like d U M).likes =
      d.likes.filter (fun l => !(l.user_id == U.id && l.message_id == M.id)) := by
  simp [User.toggle_like, likeExists, h]

/-- The `likes` table after one toggle, when the edge is absent: the edge
row is appended. -/
theorem toggle_like_likes_neg (d : DB) (U : User) (M : Message)
    (h : d.likes.any
      (fun l => l.user_id == U.id && l.message_id == M.id) = false) :
    (User.toggle_like d U M).likes =
      d.likes ++ [{ user_id := U.id, message_id := M.id }] := by
  simp [User.toggle_like, likeExists, h]

/-- Claim C7: for a message not owned by the toggling user, two
sequential toggles restore the presence of every Like edge to its state
before the first call, while a single toggle flips the presence of the
toggled edge (the pair is the identity, one call is not). -/
theorem toggle_like_pair_identity (db : DB) (U : User) (M : Message)
    (_hown : M.user_id ≠ U.id) :
    (∀ uid mid,
      likeExists (User.toggle_like (User.toggle_like db U M) U M) uid mid =
        likeExists db uid mid) ∧
    likeExists (User.toggle_like db U M) U.id M.id =
      !(likeExists db U.id M.id) := by
  rcases h : db.likes.any (fun l => l.user_id == U.id && l.message_id == M.id)
    with _ | _
  · -- edge absent: first toggle appends it, second removes exactly it
    have hL1 := toggle_like_likes_neg db U M h
    have hany1 : (User.toggle_like db U M).likes.any
        (fun l => l.user_id == U.id && l.message_id == M.id) = true := by
      rw [hL1, List.any_append]
      simp
    have hL2 := toggle_like_likes_pos (User.toggle_like db U M) U M hany1
    rw [hL1, List.filter_append, filter_not_eq_self _ _ h] at hL2
    have hdrop : ([({ user_id := U.id, message_id := M.id } : Like)].filter
        (fun l => !(l.user_id == U.id && l.message_id == M.id))) = [] := by
      simp
    rw [hdrop, List.append_nil] at hL2
    constructor
    · intro uid mid
      unfold likeExists
      rw [hL2]
    · unfold likeExists
      rw [hL1, List.any_append, h]
      simp
  · -- edge present: first toggle removes all matches, second appends one
    have hL1 := toggle_like_likes_pos db U M h
    have hany1 : (User.toggle_like db U M).likes.any
        (fun l => l.user_id == U.id && l.message_id == M.id) = false := by
      rw [hL1]
      exact any_filter_not_self _ _
    have hL2 := toggle_like_likes_neg (User.toggle_like db U M) U M hany1
    rw [hL1] at hL2
    constructor
    · intro uid mid
      unfold likeExists
      rw [hL2, List.any_append]
      by_cases hpair : uid = U.id ∧ mid = M.id
      · obtain ⟨h1, h2⟩ := hpair
        subst h1
        subst h2
        rw [h]
        simp
      · have hdisj : ∀ l : Like,
            (l.user_id == uid && l.message_id == mid) = true →
            (l.user_id == U.id && l.message_id == M.id) = false := by
          intro l hl
          simp only [Bool.and_eq_true, beq_iff_eq] at hl
          by_contra hc
          simp only [Bool.not_eq_false, Bool.and_eq_true, beq_iff_eq] at hc
          exact hpair ⟨hl.1.symm.trans hc.1, hl.2.symm.trans hc.2⟩
        rw [any_filter_not_of_disjoint _ _ _ hdisj]
        have hx : (({ user_id := U.id, message_id := M.id } : Like).user_id
            == uid &&
            ({ user_id := U.id, message_id := M.id } : Like).message_id
            == mid) = false := by
          by_contra hc
          simp only [Bool.not_eq_false, Bool.and_eq_true, beq_iff_eq] at hc
          exact hpair ⟨hc.1.symm, hc.2.symm⟩
        simp [hx]
    · unfold likeExists
      rw [hL1, h,
        any_filter_not_self db.likes
          (fun l => l.user_id == U.id && l.message_id == M.id)]
      rfl

/-- Witness for C7: alice toggling bobs message twice in the concrete
world restores the edge presence, and one toggle flips it. -/
theorem toggle_like_pair_identity_witness :
    likeExists (User.toggle_like (User.toggle_like dbW wAlice wMsg)
      wAlice wMsg) 1 1 = likeExists dbW 1 1 ∧
    likeExists (User.toggle_like dbW wAlice wMsg) wAlice.id wMsg.id =
      !(likeExists dbW wAlice.id wMsg.id) :=
  ⟨(toggle_like_pair_identity dbW wAlice wMsg (by decide)).1 1 1,
   (toggle_like_pair_identity dbW wAlice wMsg (by decide)).2⟩

/-- When no `A → B` edge is stored, nothing in the list `A.following`
equals `B`. -/
theorem following_no_match (db : DB) (A B : User)
    (hnoedge : ∀ f ∈ db.follows,
      ¬(f.user_being_followed_id = B.id ∧ f.user_following_id = A.id)) :
    (User.following db A).filter (fun u => u == B) = [] := by
  rw [List.filter_eq_nil_iff]
  intro x hx hxB
  have hxB' : x = B := by simpa using hxB
  simp only [User.following] at hx
  obtain ⟨f, hfmem, hfind⟩ := List.mem_filterMap.mp hx
  have h1 := List.mem_filter.mp hfmem
  have h2 := List.find?_some hfind
  have h2' : x.id = f.user_being_followed_id := by simpa using h2
  have h1' : f.user_following_id = A.id := by simpa using h1.2
  exact hnoedge f h1.1 ⟨by rw [← h2', hxB'], h1'⟩

/-- When no `A → B` edge is stored, nothing in the list `B.followers`
equals `A`. -/
theorem followers_no_match (db : DB) (A B : User)
    (hnoedge : ∀ f ∈ db.follows,
      ¬(f.user_being_followed_id = B.id ∧ f.user_following_id = A.id)) :
    (User.followers db B).filter (fun u => u == A) = [] := by
  rw [List.filter_eq_nil_iff]
  intro x hx hxA
  have hxA' : x = A := by simpa using hxA
  simp only [User.followers] at hx
  obtain ⟨f, hfmem, hfind⟩ := List.mem_filterMap.mp hx
  have h1 := List.mem_filter.mp hfmem
  have h2 := List.find?_some hfind
  have h2' : x.id = f.user_following_id := by simpa using h2
  have h1' : f.user_being_followed_id = B.id := by simpa using h1.2
  exact hnoedge f h1.1 ⟨h1', by rw [← h2', hxA']⟩

/-- Inserting the `A → B` edge appends exactly `B` to `A.following`. -/
theorem following_after_follow (db : DB) (A B : User) (hB : B ∈ db.users)
    (hn : (db.users.map (fun u => u.id)).Nodup) :
    User.following (User.follow db A B) A = User.following db A ++ [B] := by
  simp only [User.following, User.follow]
  rw [List.filter_append, List.filterMap_append]
  congr 1
  simp [List.filterMap, find_user_by_id db.users B hB hn]

/-- Inserting the `A → B` edge appends exactly `A` to `B.followers`. -/
theorem followers_after_follow (db : DB) (A B : User) (hA : A ∈ db.users)
    (hn : (db.users.map (fun u => u.id)).Nodup) :
    User.followers (User.follow db A B) B = User.followers db B ++ [A] := by
  simp only [User.followers, User.follow]
  rw [List.filter_append, List.filterMap_append]
  congr 1
  simp [List.filterMap, find_user_by_id db.users A hA hn]

/-- Claim C6: for distinct stored users with no `A → B` edge, `follow`
makes `is_following A B` and `is_followed_by B A` true; the subsequent
`unfollow` makes both false; and `unfollow` with no matching edge leaves
the database unchanged (a no-op, not an error). -/
theorem follow_unfollow_spec (db : DB) (A B : User)
    (hA : A ∈ db.users) (hB : B ∈ db.users) (_hAB : A ≠ B)
    (hn : (db.users.map (fun u => u.id)).Nodup)
    (hnoedge : ∀ f ∈ db.follows,
      ¬(f.user_being_followed_id = B.id ∧ f.user_following_id = A.id)) :
    User.is_following (User.follow db A B) A B = true ∧
    User.is_followed_by (User.follow db A B) B A = true ∧
    User.is_following (User.unfollow (User.follow db A B) A B) A B = false ∧
    User.is_followed_by (User.unfollow (User.follow db A B) A B) B A = false ∧
    User.unfollow db A B = db := by
  have hany : db.follows.any
      (fun f => f.user_being_followed_id == B.id &&
        f.user_following_id == A.id) = false := by
    rw [List.any_eq_false]
    intro f hf
    simp only [Bool.and_eq_true, beq_iff_eq]
    exact hnoedge f hf
  have hkeep : db.follows.filter
      (fun f => !(f.user_being_followed_id == B.id &&
        f.user_following_id == A.id)) = db.follows :=
    filter_not_eq_self _ _ hany
  have hnoop : User.unfollow db A B = db := by
    unfold User.unfollow
    rw [hkeep]
  have hundo : User.unfollow (User.follow db A B) A B = db := by
    simp only [User.unfollow, User.follow]
    rw [List.filter_append, hkeep]
    simp
  refine ⟨?_, ?_, ?_, ?_, hnoop⟩
  · unfold User.is_following
    rw [following_after_follow db A B hB hn, List.filter_append,
      following_no_match db A B hnoedge]
    simp
  · unfold User.is_followed_by
    rw [followers_after_follow db A B hA hn, List.filter_append,
      followers_no_match db A B hnoedge]
    simp
  · rw [hundo]
    unfold User.is_following
    rw [following_no_match db A B hnoedge]
    rfl
  · rw [hundo]
    unfold User.is_followed_by
    rw [followers_no_match db A B hnoedge]
    rfl

/-- Witness for C6: alice following then unfollowing bob in the concrete
world, where no edge exists to begin with. -/
theorem follow_unfollow_spec_witness :
    User.is_following (User.follow dbW wAlice wBob) wAlice wBob = true ∧
    User.is_followed_by (User.follow dbW wAlice wBob) wBob wAlice = true ∧
    User.is_following (User.unfollow (User.follow dbW wAlice wBob) wAlice wBob)
      wAlice wBob = false ∧
    User.is_followed_by (User.unfollow (User.follow dbW wAlice wBob) wAlice wBob)
      wBob wAlice = false ∧
    User.unfollow dbW wAlice wBob = dbW :=
  follow_unfollow_spec dbW wAlice wBob (by decide) (by decide) (by decide)
    (by decide) (by decide)

/-- Claim C1: deleting the authenticated user removes that users row, all
of their messages, every follow edge in which they are either endpoint,
and all of their likes; moreover no surviving like references one of the
deleted messages, so no row referencing the deleted user remains. -/
theorem delete_user_no_orphans (db : DB) (uid : Nat) (U : User)
    (hg : getUser db uid = some U) :
    (∀ u ∈ (App.delete_user db (some uid) true).db.users, u.id ≠ U.id) ∧
    (∀ m ∈ (App.delete_user db (some uid) true).db.messages,
      m.user_id ≠ U.id) ∧
    (∀ f ∈ (App.delete_user db (some uid) true).db.follows,
      f.user_being_followed_id ≠ U.id ∧ f.user_following_id ≠ U.id) ∧
    (∀ l ∈ (App.delete_user db (some uid) true).db.likes, l.user_id ≠ U.id) ∧
    (∀ l ∈ (App.delete_user db (some uid) true).db.likes,
      ∀ m ∈ db.messages, m.user_id = U.id → l.message_id ≠ m.id) := by
  have hroute : App.delete_user db (some uid) true =
      (let deletedMsgIds :=
        (db.messages.filter (fun m => m.user_id == U.id)).map (fun m => m.id)
      let db1 : DB :=
        { db with
          messages := db.messages.filter (fun m => !(m.user_id == U.id))
          likes :=
            db.likes.filter (fun l => !(deletedMsgIds.contains l.message_id)) }
      let db2 : DB :=
        { users := db1.users.filter (fun u => !(u.id == U.id))
          messages := db1.messages.filter (fun m => !(m.user_id == U.id))
          follows :=
            db1.follows.filter (fun f =>
              !(f.user_being_followed_id == U.id ||
                f.user_following_id == U.id))
          likes := db1.likes.filter (fun l => !(l.user_id == U.id)) }
      { db := db2, sess := none, resp := Response.redirect "/signup" none }) := by
    unfold App.delete_user
    simp [gUser, hg]
  rw [hroute]
  simp only []
  refine ⟨?_, ?_, ?_, ?_, ?_⟩
  · intro u hu
    have := (List.mem_filter.mp hu).2
    simpa using this
  · intro m hm
    have := (List.mem_filter.mp hm).2
    simpa using this
  · intro f hf
    have := (List.mem_filter.mp hf).2
    simp only [Bool.not_eq_true', Bool.or_eq_false_iff, beq_eq_false_iff_ne]
      at this
    exact this
  · intro l hl
    have := (List.mem_filter.mp hl).2
    simpa using this
  · intro l hl m hm hmu
    have hl1 := (List.mem_filter.mp hl).1
    have hkeep := (List.mem_filter.mp hl1).2
    simp only [Bool.not_eq_true'] at hkeep
    intro hle
    have hmem : m.id ∈
        (db.messages.filter (fun m => m.user_id == U.id)).map
          (fun m => m.id) :=
      List.mem_map.mpr ⟨m, List.mem_filter.mpr ⟨hm, by simp [hmu]⟩, rfl⟩
    rw [hle] at hkeep
    rw [List.contains_eq_any_beq] at hkeep
    have hany : (((db.messages.filter (fun m => m.user_id == U.id)).map
        (fun m => m.id)).any (fun x => m.id == x)) = true :=
      List.any_eq_true.mpr ⟨m.id, hmem, by simp⟩
    rw [hany] at hkeep
    cases hkeep

/-- Witness for C1: deleting alice in the populated concrete world leaves
no row referencing her. -/
theorem delete_user_no_orphans_witness :
    (∀ u ∈ (App.delete_user dbBig (some 1) true).db.users, u.id ≠ wAlice.id) ∧
    (∀ m ∈ (App.delete_user dbBig (some 1) true).db.messages,
      m.user_id ≠ wAlice.id) ∧
    (∀ f ∈ (App.delete_user dbBig (some 1) true).db.follows,
      f.user_being_followed_id ≠ wAlice.id ∧
        f.user_following_id ≠ wAlice.id) ∧
    (∀ l ∈ (App.delete_user dbBig (some 1) true).db.likes,
      l.user_id ≠ wAlice.id) ∧
    (∀ l ∈ (App.delete_user dbBig (some 1) true).db.likes,
      ∀ m ∈ dbBig.messages, m.user_id = wAlice.id → l.message_id ≠ m.id) :=
  delete_user_no_orphans dbBig 1 wAlice (by decide)

/-- Claim C4 (counterexample): the home feed query fixes only the
timestamp ordering, so on two messages tying on timestamp both
arrangements are admissible results of the query — the result is not
deterministic and no identifier-order tie-break is imposed. -/
theorem homepage_tie_not_deterministic :
    App.homepageQueryResult dbTie wAlice [mTie1, mTie2] ∧
    App.homepageQueryResult dbTie wAlice [mTie2, mTie1] ∧
    [mTie2, mTie1] ≠ [mTie1, mTie2] ∧
    mTie1.timestamp = mTie2.timestamp ∧ mTie1.id < mTie2.id := by
  have hcand : App.homeFeedCandidates dbTie wAlice = [mTie1, mTie2] := by
    decide
  refine ⟨⟨[mTie1, mTie2], ?_, ?_, ?_⟩, ⟨[mTie2, mTie1], ?_, ?_, ?_⟩,
    by decide, by decide, by decide⟩
  · rw [hcand]
  · simp [mTie1, mTie2]
  · rfl
  · rw [hcand]
    exact List.Perm.swap mTie1 mTie2 []
  · simp [mTie1, mTie2]
  · rfl

/-- Claim C4 (amended): every result admitted by the home feed query has
at most 100 messages, is ordered by timestamp descending, and draws only
from the messages authored by the user or by someone the user follows;
when the candidate set has at most 100 messages the result is exactly a
permutation of it.  Tie order among equal timestamps is not specified by
the query, so this is the whole guarantee. -/
theorem homepage_query_spec (db : DB) (user : User) (r : List Message)
    (h : App.homepageQueryResult db user r) :
    r.length ≤ 100 ∧
    r.Pairwise (fun a b => b.timestamp ≤ a.timestamp) ∧
    (∀ m ∈ r, m ∈ App.homeFeedCandidates db user) ∧
    ((App.homeFeedCandidates db user).length ≤ 100 →
      r.Perm (App.homeFeedCandidates db user)) := by
  obtain ⟨p, hperm, hsort, hr⟩ := h
  subst hr
  refine ⟨?_, ?_, ?_, ?_⟩
  · rw [List.length_take]
    exact min_le_left _ _
  · exact List.Pairwise.sublist (List.take_sublist _ _) hsort
  · intro m hm
    exact hperm.subset (List.take_subset _ _ hm)
  · intro hlen
    have hp : p.length ≤ 100 := by
      rw [hperm.length_eq]
      exact hlen
    rw [List.take_of_length_le hp]
    exact hperm

/-- Witness for the amended C4: the concrete tie world admits the
insertion-ordered arrangement, which then satisfies every clause of the
guarantee. -/
theorem homepage_query_spec_witness :
    ([mTie1, mTie2] : List Message).length ≤ 100 ∧
    ([mTie1, mTie2] : List Message).Pairwise
      (fun a b => b.timestamp ≤ a.timestamp) ∧
    (∀ m ∈ ([mTie1, mTie2] : List Message),
      m ∈ App.homeFeedCandidates dbTie wAlice) ∧
    ((App.homeFeedCandidates dbTie wAlice).length ≤ 100 →
      ([mTie1, mTie2] : List Message).Perm
        (App.homeFeedCandidates dbTie wAlice)) :=
  homepage_query_spec dbTie wAlice [mTie1, mTie2]
    ⟨[mTie1, mTie2],
     by rw [show App.homeFeedCandidates dbTie wAlice = [mTie1, mTie2] by decide],
     by simp [mTie1, mTie2],
     rfl⟩

end Warbler
